import Mathlib

/-!
Verification development for the imoova relocation-offer notifier
(`src/main.py`).  The Python program is shallowly embedded: pure string
processing becomes Lean functions on `String`/`List Char`, the network is
an oracle `String → String → Bool` (chat id, message text ↦ success),
file states are explicit values, and the `__main__` control flow is a
function from inputs to a result record.
-/

namespace Imoova

/-- Comma string, used as the separator argument of `splitOn`. -/
def commaSep : String := ","

/-- Whitespace predicate modelling Python `str.strip` / `str.isspace`.
Faithful fragment of the Unicode data: covers the ASCII whitespace
characters and U+00A0 NO-BREAK SPACE; other characters are treated as
non-whitespace. -/
def isPySpace (c : Char) : Bool :=
  c = ' ' || c = '\t' || c = '\n' || c = '\r' ||
  c = Char.ofNat 0x0b || c = Char.ofNat 0x0c || c = Char.ofNat 0xa0

/-- Per-character lowercase mapping modelling Python `str.lower`.
Faithful fragment of the Unicode simple lowercase mapping: ASCII letters
plus the accented capitals appearing in the development; characters
outside the fragment (which have no lowercase mapping) are unchanged. -/
def pyLowerChar (c : Char) : Char :=
  if c = 'Ü' then 'ü'
  else if c = 'Á' then 'á'
  else if c = 'É' then 'é'
  else c.toLower

/-- Per-character NFKD decomposition modelling
`unicodedata.normalize("NFKD", ·)`.  Faithful fragment of the Unicode
decomposition data:
U+00FC ü → u + U+0308, U+00E1 á → a + U+0301, U+00E9 é → e + U+0301,
U+00B4 ACUTE ACCENT → U+0020 SPACE + U+0301 (a compatibility
decomposition that introduces a space), and U+1D37 MODIFIER LETTER
CAPITAL K → U+004B.  Characters outside the fragment decompose to
themselves. -/
def nfkdChar (c : Char) : List Char :=
  if c = 'ü' then ['u', Char.ofNat 0x308]
  else if c = 'á' then ['a', Char.ofNat 0x301]
  else if c = 'é' then ['e', Char.ofNat 0x301]
  else if c = Char.ofNat 0xb4 then [' ', Char.ofNat 0x301]
  else if c = Char.ofNat 0x1d37 then ['K']
  else [c]

/-- Combining-character predicate modelling `unicodedata.combining(ch) != 0`.
Every character of the Combining Diacritical Marks block U+0300–U+036F has
a nonzero combining class; characters outside that block that occur in
this development are not combining. -/
def isCombiningMark (c : Char) : Bool :=
  0x300 ≤ c.toNat && c.toNat ≤ 0x36f

/-- Python `str.strip()` on a character list: drop whitespace from both ends. -/
def pyStrip (l : List Char) : List Char :=
  ((l.dropWhile isPySpace).reverse.dropWhile isPySpace).reverse

/-- Python `str.lower()` on a string (per-character simple mapping). -/
def pyLower (s : String) : String :=
  ⟨s.data.map pyLowerChar⟩

/-- Embeds `normalize_city` (src/main.py lines 166-173): empty input maps
to the empty string; otherwise strip, lowercase, NFKD-decompose, and drop
combining marks. -/
def normalize_city (name : String) : String :=
  if name = "" then ""
  else
    let s1 := pyStrip name.data
    let s2 := s1.map pyLowerChar
    let s3 := (s2.map nfkdChar).flatten
    let s4 := s3.filter (fun ch => !isCombiningMark ch)
    ⟨s4⟩

/-- Python substring containment `a in b` on strings. -/
def pySubstr (a b : String) : Prop := a.data <:+: b.data

instance (a b : String) : Decidable (pySubstr a b) :=
  List.decidableInfix a.data b.data

/-- One camper offer as built by the fetcher (src/main.py lines 72-81). -/
structure Offer where
  id : String
  url : String
  origin : String
  arrival : String
  start : String
  end_ : String
  model : String
  days : String
deriving DecidableEq, Repr

/-- Inner loop body of `filter_campers`: does a camper match any city of
the pre-normalized list (non-empty normalized city that is a substring of
the normalized origin or arrival)? -/
def cityMatch (normCities : List String) (c : Offer) : Bool :=
  normCities.any (fun nc =>
    nc ≠ "" && (decide (pySubstr nc (normalize_city c.origin)) ||
                decide (pySubstr nc (normalize_city c.arrival))))

/-- Embeds `filter_campers` (src/main.py lines 176-191): keep campers whose
normalized origin or arrival has some non-empty normalized city as a
substring (the for/break loop is the `any`). -/
def filter_campers (campers : List Offer) (cities : List String) : List Offer :=
  let normCities := cities.map normalize_city
  campers.filter (cityMatch normCities)

/-- JSON values, for modelling the contents of the seen-offers file. -/
inductive Json where
  | null : Json
  | bool (b : Bool) : Json
  | num (q : ℚ) : Json
  | str (s : String) : Json
  | arr (xs : List Json) : Json
  | obj (fields : List (String × Json)) : Json

/-- Is a JSON value an array (Python `isinstance(data, list)`)? -/
def Json.isArr : Json → Bool
  | .arr _ => true
  | _ => false

/-- State of the seen-offers file: `none` = file absent, `some none` =
present but not parseable as JSON, `some (some j)` = parses to `j`. -/
abbrev SeenFile := Option (Option Json)

/-- Embeds `load_seen` (src/main.py lines 87-95): empty set if the file is
absent; a parse failure is caught and yields the empty set; a parsed value
that is not a list also yields the empty set (`set(data if isinstance(data,
list) else [])`).  The function is total: no branch raises.  The Python
`set` is represented by the element list of the JSON array. -/
def load_seen : SeenFile → List Json
  | none => []
  | some none => []
  | some (some j) =>
    match j with
    | .arr xs => xs
    | _ => []

/-- Embeds `send_telegram_message` (src/main.py lines 106-117) success
outcome: false when token or chat id is empty, otherwise the network
oracle decides (HTTP 200 ↦ true; any exception is caught and reported as
false).  Response payloads are not modelled: no claim mentions them. -/
def send_telegram_message (token chat text : String) (net : String → String → Bool) : Bool :=
  if token = "" ∨ chat = "" then false
  else net chat text

/-- Embeds `send_to_chats` (src/main.py lines 153-163) result list: empty
when token or chat list is empty, otherwise one `(chat, ok)` pair per chat
in order.  The heartbeat-file write it performs on any success is modelled
by `afterSend` at the call sites. -/
def send_to_chats (token : String) (chats : List String) (text : String)
    (net : String → String → Bool) : List (String × Bool) :=
  if token = "" ∨ chats = [] then []
  else chats.map (fun c => (c, send_telegram_message token c text net))

/-- Heartbeat-file update performed by `send_to_chats` / `update_last_message_time`:
record `now` when at least one send succeeded, else keep the old record. -/
def afterSend (last : Option ℚ) (now : ℚ) (results : List (String × Bool)) : Option ℚ :=
  if results.any (fun r => r.2) then some now else last

/-- Liveness message text (src/main.py line 148). -/
def aliveText : String :=
  "🤖 ¡Sigo vivo! No he encontrado nuevas ofertas de campers esta semana, pero sigo buscando."

/-- Embeds `check_and_send_alive_message` (src/main.py lines 137-151)
together with the heartbeat-file writes it triggers.  Input `last` is the
recorded `last_message_time` (`none` when `get_last_message_time` returns
`None`); `now` is `time.time()`; `hdays` is `heartbeat_days`.  Returns the
recorded time after the call and the list of send results (empty when
nothing was sent). -/
def check_and_send_alive_message (token : String) (chats : List String)
    (net : String → String → Bool) (hdays : ℤ) (now : ℚ) (last : Option ℚ) :
    Option ℚ × List (String × Bool) :=
  match last with
  | none => (some now, [])
  | some t =>
    if t < now - (hdays : ℚ) * (24 * 60 * 60) then
      let results := send_to_chats token chats aliveText net
      let last1 := afterSend (some t) now results
      let last2 := if results.any (fun r => r.2) then some now else last1
      (last2, results)
    else (some t, [])

/-- Environment variables read by `load_config` (src/main.py lines 18-21):
each is `some v` when set, `none` when unset. -/
structure Env where
  telegram_token : Option String
  telegram_chats : Option String
  default_cities : Option String
  heartbeat_days : Option String

/-- Typed contents of a parsed `config.json`: each field is `some v` when
the corresponding key is present in the file's JSON object. -/
structure FileConfig where
  telegram_token : Option String
  telegram_chats : Option (List String)
  default_cities : Option (List String)
  heartbeat_days : Option ℤ

/-- Merged configuration dictionary. -/
structure Config where
  telegram_token : String
  telegram_chats : List String
  default_cities : List String
  heartbeat_days : ℤ
deriving DecidableEq, Repr

/-- Python `s.split(",")` helper: accumulate the current chunk (reversed)
and cut at every comma; splitting the empty string yields `[""]`, like
Python. -/
def splitCommaAux : List Char → List Char → List String
  | [], cur => [⟨cur.reverse⟩]
  | c :: rest, cur =>
    if c = ',' then (⟨cur.reverse⟩ : String) :: splitCommaAux rest []
    else splitCommaAux rest (c :: cur)

/-- Python `s.split(",")`. -/
def pySplitComma (s : String) : List String := splitCommaAux s.data []

/-- Python comma-split-strip-filter idiom
`[c.strip() for c in s.split(",") if c.strip()]`. -/
def splitClean (s : String) : List String :=
  ((pySplitComma s).map (fun c => (⟨pyStrip c.data⟩ : String))).filter (fun c => c ≠ "")

/-- Digit predicate for `pyInt`. -/
def isAsciiDigit (c : Char) : Bool := '0' ≤ c && c ≤ '9'

/-- Python `int(s)`: optional surrounding whitespace, optional sign, at
least one digit; `none` models the `ValueError` raise. -/
def pyInt (s : String) : Option ℤ :=
  let t := pyStrip s.data
  let (sign, digits) :=
    match t with
    | '-' :: rest => ((-1 : ℤ), rest)
    | '+' :: rest => ((1 : ℤ), rest)
    | _ => ((1 : ℤ), t)
  if digits = [] ∨ ¬ digits.all isAsciiDigit then none
  else some (sign * (digits.foldl (fun n c => 10 * n + ((c.toNat : ℤ) - 48)) 0))

/-- Embeds `load_config` (src/main.py lines 15-33).  The base dictionary
is built from environment variables with defaults ("", "", "", "7"); then,
if the config file exists and parses (`file = some fc`), `config.update`
overrides every key present in the file.  A missing or unparsable file
leaves the base dictionary (the exception is caught with a warning).
`int()` on a malformed HEARTBEAT_DAYS raises, modelled as `.error`. -/
def load_config (env : Env) (file : Option FileConfig) : Except Unit Config :=
  match pyInt (env.heartbeat_days.getD "7") with
  | none => .error ()
  | some hb =>
    let base : Config :=
      { telegram_token := env.telegram_token.getD ""
        telegram_chats := splitClean (env.telegram_chats.getD "")
        default_cities := splitClean (env.default_cities.getD "")
        heartbeat_days := hb }
    .ok (match file with
      | none => base
      | some fc =>
        { telegram_token := fc.telegram_token.getD base.telegram_token
          telegram_chats := fc.telegram_chats.getD base.telegram_chats
          default_cities := fc.default_cities.getD base.default_cities
          heartbeat_days := fc.heartbeat_days.getD base.heartbeat_days })

/-- Command-line flags (src/main.py lines 195-206): `some v` when passed,
`none` when the argparse default (taken from the merged config) applies. -/
structure CliArgs where
  telegram_token : Option String
  telegram_chats : Option String
  cities : Option String
  seen_file : Option String

/-- Comma join `",".join(l)`. -/
def joinComma (l : List String) : String := String.intercalate commaSep l

/-- Effective telegram token: the flag when passed, else the argparse
default `config["telegram_token"]` (src/main.py lines 200-201). -/
def effToken (cfg : Config) (a : CliArgs) : String :=
  a.telegram_token.getD cfg.telegram_token

/-- Effective chat list (src/main.py lines 202-203 and 209-211): the flag
string — defaulting to the comma-join of the config list — split on commas,
stripped, empties dropped. -/
def effChats (cfg : Config) (a : CliArgs) : List String :=
  splitClean (a.telegram_chats.getD (joinComma cfg.telegram_chats))

/-- Effective city list (src/main.py lines 198-199 and 229). -/
def effCities (cfg : Config) (a : CliArgs) : List String :=
  splitClean (a.cities.getD (joinComma cfg.default_cities))

/-- One `<td>` cell of a table row: its stripped text (`get_text(strip=True)`)
and, for the first column, the `href` of a contained link if any. -/
structure Cell where
  text : String
  href : Option String
deriving DecidableEq, Repr

/-- One `<tr>` of the fetched table, as its list of `<td>` cells. -/
abbrev Row := List Cell

/-- Text of column `i`, used under a length guard, so the default is never
taken at guarded indices. -/
def cellText (row : Row) (i : ℕ) : String :=
  (row.getD i ⟨"", none⟩).text

/-- String constant used by `Cell.href.startsWith`. -/
def httpHead : String := "http"

/-- Site prefix prepended to relative offer links. -/
def siteBase : String := "https://www.imoova.com"

/-- Offer URL from the first column (src/main.py lines 59-62): empty when
there is no link or the link has no (or an empty) href; absolute hrefs are
kept, relative ones get the site prefix. -/
def offerUrl (row : Row) : String :=
  match (row.getD 0 ⟨"", none⟩).href with
  | none => ""
  | some h => if h = "" then "" else if h.startsWith httpHead then h else siteBase ++ h

/-- Header-text constant compared against the lowercased origin column. -/
def originHeader : String := "origin"

/-- Per-row parse (src/main.py lines 56-70): a row with at least 3 columns
yields a candidate offer whose optional columns (start 3, end 4, model 5,
days 7) default to the empty string; the candidate is kept only if its id,
origin and arrival are non-empty and the lowercased origin is not the
header text. -/
def rowCandidate (row : Row) : Offer :=
  { id := cellText row 0
    url := offerUrl row
    origin := cellText row 1
    arrival := cellText row 2
    start := if row.length > 3 then cellText row 3 else ""
    end_ := if row.length > 4 then cellText row 4 else ""
    model := if row.length > 5 then cellText row 5 else ""
    days := if row.length > 7 then cellText row 7 else "" }

/-- Validity test and packaging of one row (continuing src/main.py lines
56-70). -/
def rowOffer (row : Row) : Option Offer :=
  if row.length ≥ 3 then
    let o := rowCandidate row
    if o.id ≠ "" ∧ o.origin ≠ "" ∧ o.arrival ≠ "" ∧ pyLower o.origin ≠ originHeader
    then some o else none
  else none

/-- Loop state of the fetcher: accumulated campers and the `seen_ids` set
(represented as the list of ids added so far). -/
def fetchStep (st : List Offer × List String) (row : Row) : List Offer × List String :=
  match rowOffer row with
  | none => st
  | some o => if st.2.contains o.id then st else (st.1 ++ [o], st.2 ++ [o.id])

/-- Embeds the parsing loop of `fetch_imoova_campers` (src/main.py lines
49-83) over the document-order row list of the fetched table; the network
fetch itself is the caller's input. -/
def fetch_imoova_campers (rows : List Row) : List Offer :=
  (rows.foldl fetchStep ([], [])).1

/-- Declarative first-occurrence deduplication by offer id, for comparison
with the seen-set threading of the fetcher. -/
def dedupFirst : List Offer → List Offer
  | [] => []
  | o :: rest => o :: dedupFirst (rest.filter (fun p => p.id ≠ o.id))
termination_by l => l.length
decreasing_by
  simpa using Nat.lt_succ_of_le (List.length_filter_le _ rest)

/-- Ids present in the current fetch (src/main.py line 239):
`set(c.get('id') for c in campers if c.get('id'))`. -/
def currentIdsOf (campers : List Offer) : Finset String :=
  ((campers.map (fun c => c.id)).filter (fun i => i ≠ "")).toFinset

/-- Embeds the pruning block (src/main.py lines 238-245): `stale` is the
set difference seen minus current ids, and the discard loop removes
exactly the stale ids from `seen`.  Returns (pruned seen, stale). -/
def pruneSeen (seen currentIds : Finset String) : Finset String × Finset String :=
  let stale := seen \ currentIds
  (seen \ stale, stale)

/-- Single-quote character, for the href markup of the message text. -/
def sq : String := ⟨[Char.ofNat 39]⟩

/-- Notification text for one offer (src/main.py lines 261-262). -/
def offerText (o : Offer) : String :=
  let daysInfo := if o.days ≠ "" then "\nDuración: " ++ o.days ++ " días" else ""
  "✨ <b>" ++ o.origin ++ " -> " ++ o.arrival ++ "</b>\n" ++ o.start ++ " - " ++
    o.end_ ++ "\n" ++ o.model ++ daysInfo ++ "\n\n<a href=" ++ sq ++ o.url ++ sq ++
    ">Ver oferta</a>"

/-- Number of successful sends for one offer's notification
(src/main.py line 265). -/
def successCount (token : String) (chats : List String)
    (net : String → String → Bool) (o : Offer) : ℕ :=
  ((send_to_chats token chats (offerText o) net).filter (fun r => r.2)).length

/-- One iteration of the notification loop (src/main.py lines 260-272):
send the offer to all chats and add its id to the seen set exactly when
the success count equals the number of configured chats. -/
def notifyStep (token : String) (chats : List String) (net : String → String → Bool)
    (seen : Finset String) (o : Offer) : Finset String :=
  if successCount token chats net o = chats.length then insert o.id seen else seen

/-- The notification loop over all new offers (src/main.py lines 259-272),
returning the seen set that line 273 saves. -/
def notifyOffers (token : String) (chats : List String) (net : String → String → Bool)
    (seen : Finset String) (new : List Offer) : Finset String :=
  new.foldl (notifyStep token chats net) seen

/-- Observable outcome of one run of the `__main__` block.
`seenAfterPrune` and `finalSeen` are `none` on paths that never reach the
corresponding point (early exit; no-telegram runs never write the final
seen set, src/main.py line 273 is inside the `if`). -/
structure RunResult where
  exitCode : ℕ
  errorNotified : Bool
  seenAfterPrune : Option (Finset String)
  pruneSaved : Bool
  finalSeen : Option (Finset String)
deriving DecidableEq

/-- Embeds the `__main__` control flow (src/main.py lines 213-273).
Inputs: the fetch outcome (exception or parsed offers), the effective
token, chat list and city list, the seen set loaded from the seen file,
and the network oracle.  A fetch exception or an empty offer list exits
with code 1, attempting an error notification exactly when token and
chats are configured; otherwise the run filters, prunes (saving if
anything was stale), and — when token and chats are configured — notifies
new offers and saves the final seen set, exiting 0.  Reloading the seen
file at line 258 yields the pruned set again (the file was rewritten when
anything was stale, and is unchanged — equal to the pruned set — otherwise).
The heartbeat call at line 256 touches only the heartbeat file, modelled
separately by `check_and_send_alive_message`. -/
def runMain (fetched : Except Unit (List Offer)) (token : String)
    (chats : List String) (cities : List String) (seen0 : Finset String)
    (net : String → String → Bool) : RunResult :=
  match fetched with
  | .error _ =>
    { exitCode := 1, errorNotified := token ≠ "" && chats ≠ ([] : List String),
      seenAfterPrune := none, pruneSaved := false, finalSeen := none }
  | .ok campers =>
    if campers = [] then
      { exitCode := 1, errorNotified := token ≠ "" && chats ≠ ([] : List String),
        seenAfterPrune := none, pruneSaved := false, finalSeen := none }
    else
      let filtered := if cities = [] then campers else filter_campers campers cities
      let current := currentIdsOf campers
      let (seen1, stale) := pruneSeen seen0 current
      let saved := stale ≠ (∅ : Finset String)
      if token ≠ "" ∧ chats ≠ [] then
        let new := filtered.filter (fun c => c.id ≠ "" && c.id ∉ seen1)
        { exitCode := 0, errorNotified := false, seenAfterPrune := some seen1,
          pruneSaved := saved, finalSeen := some (notifyOffers token chats net seen1 new) }
      else
        { exitCode := 0, errorNotified := false, seenAfterPrune := some seen1,
          pruneSaved := saved, finalSeen := none }

/-! Helper values for witnesses. -/

/-- Network oracle on which every send succeeds. -/
def netAll : String → String → Bool := fun _ _ => true

/-- Network oracle on which only chat "a" receives successfully. -/
def netOnlyA : String → String → Bool := fun c _ => c = "a"

/-- Concrete offer used in witnesses. -/
def sampleOffer : Offer :=
  { id := "1", url := "", origin := "Madrid Centro", arrival := "Paris",
    start := "", end_ := "", model := "", days := "" }

/-! Claim theorems. -/

/-- C8: loading the seen set returns the empty set, without raising, when
the file is absent or its contents cannot be parsed as JSON (`load_seen`
is total, so no branch can raise). -/
theorem load_seen_degrades_to_empty :
    load_seen none = [] ∧ load_seen (some none) = [] :=
  ⟨rfl, rfl⟩

/-- C9: a seen-offers file holding valid JSON that is not an array (an
object, a string, a number, ...) loads as the empty set — neither raised
nor coerced. -/
theorem load_seen_non_array (j : Json) (h : j.isArr = false) :
    load_seen (some (some j)) = [] := by
  cases j <;> simp [Json.isArr] at h ⊢ <;> rfl

/-- Witness for C9 at the concrete non-array value `{}` (empty object). -/
theorem load_seen_non_array_witness :
    load_seen (some (some (Json.obj []))) = [] :=
  load_seen_non_array (Json.obj []) rfl

/-- C4: pruning removes exactly the seen ids absent from the current
fetch (pruned = seen ∩ current, removed = seen \ current), the concrete
example {A,B,C} vs {A,C} gives ({A,C}, {B}), and in the main flow the
prune runs on every invocation with a non-empty fetch — for every city
filter, token and chat configuration — persisting exactly when something
was removed. -/
theorem prune_spec :
    (∀ seen current : Finset String,
        (pruneSeen seen current).1 = seen ∩ current ∧
        (pruneSeen seen current).2 = seen \ current) ∧
    pruneSeen {"A", "B", "C"} {"A", "C"} = ({"A", "C"}, {"B"}) ∧
    (∀ (campers : List Offer) token chats cities seen0 net, campers ≠ [] →
        (runMain (.ok campers) token chats cities seen0 net).seenAfterPrune
            = some (seen0 ∩ currentIdsOf campers) ∧
        ((runMain (.ok campers) token chats cities seen0 net).pruneSaved = true ↔
            seen0 \ currentIdsOf campers ≠ ∅)) := by
  refine ⟨fun seen current => ⟨Finset.sdiff_sdiff_self_left seen current, rfl⟩, by decide, ?_⟩
  intro campers token chats cities seen0 net hne
  simp only [runMain, pruneSeen]
  rw [if_neg hne]
  split <;> simp [Finset.sdiff_sdiff_self_left]

/-- Witness for C4's run-level conjunct at a concrete non-empty fetch. -/
theorem prune_spec_witness :
    (runMain (.ok [sampleOffer]) "" [] [] {"1", "B"} netAll).seenAfterPrune
        = some ({"1", "B"} ∩ currentIdsOf [sampleOffer]) :=
  (prune_spec.2.2 [sampleOffer] "" [] [] {"1", "B"} netAll (by decide)).1

/-- C6: the run exits with code 1 when the fetch raises or yields zero
offers, attempting the error notification exactly when token and chats
are configured, and exits 0 (with no error notification) on any non-empty
fetch, whatever the city filter — including when nothing matches it. -/
theorem exit_code_spec :
    (∀ token chats cities seen0 net,
        (runMain (.error ()) token chats cities seen0 net).exitCode = 1 ∧
        ((runMain (.error ()) token chats cities seen0 net).errorNotified = true ↔
          token ≠ "" ∧ chats ≠ [])) ∧
    (∀ token chats cities seen0 net,
        (runMain (.ok []) token chats cities seen0 net).exitCode = 1 ∧
        ((runMain (.ok []) token chats cities seen0 net).errorNotified = true ↔
          token ≠ "" ∧ chats ≠ [])) ∧
    (∀ (campers : List Offer) token chats cities seen0 net, campers ≠ [] →
        (runMain (.ok campers) token chats cities seen0 net).exitCode = 0 ∧
        (runMain (.ok campers) token chats cities seen0 net).errorNotified = false) := by
  refine ⟨fun token chats cities seen0 net => ⟨rfl, by simp [runMain]⟩,
          fun token chats cities seen0 net => ⟨rfl, by simp [runMain]⟩, ?_⟩
  intro campers token chats cities seen0 net hne
  simp only [runMain]
  rw [if_neg hne]
  split <;> simp

/-- Witness for C6 at concrete inputs: an empty-fetch run with configured
destinations exits 1, and a run that fetched one offer matching no city
exits 0. -/
theorem exit_code_spec_witness :
    ((runMain (.ok []) "t" ["a"] ["nowhere"] ∅ netAll).exitCode = 1 ∧
      ((runMain (.ok []) "t" ["a"] ["nowhere"] ∅ netAll).errorNotified = true ↔
        ("t" : String) ≠ "" ∧ (["a"] : List String) ≠ [])) ∧
    (runMain (.ok [sampleOffer]) "t" ["a"] ["nowhere"] ∅ netAll).exitCode = 0 :=
  ⟨exit_code_spec.2.1 "t" ["a"] ["nowhere"] ∅ netAll,
   (exit_code_spec.2.2 [sampleOffer] "t" ["a"] ["nowhere"] ∅ netAll (by decide)).1⟩

/-- Folding the notification loop over offers none of whose ids equal `x`
neither adds nor removes `x` from the seen set. -/
theorem notify_foldl_untouched (token : String) (chats : List String)
    (net : String → String → Bool) (x : String) :
    ∀ (l : List Offer) (seen : Finset String), x ∉ l.map (fun o => o.id) →
      (x ∈ l.foldl (notifyStep token chats net) seen ↔ x ∈ seen) := by
  intro l
  induction l with
  | nil => intro seen _; rfl
  | cons a rest ih =>
    intro seen hx
    rw [List.map_cons, List.mem_cons, not_or] at hx
    rw [List.foldl_cons, ih _ hx.2, notifyStep]
    split
    · rw [Finset.mem_insert]
      exact or_iff_right hx.1
    · rfl

/-- C1: in a run with a configured token and a non-empty chat list, each
new offer's identifier ends up in the seen set produced by the
notification loop exactly when its success count equals the number of
configured chats — so any partial success leaves it out. -/
theorem commit_rule (token : String) (chats : List String)
    (net : String → String → Bool) (seen : Finset String) (new : List Offer)
    (_htok : token ≠ "") (_hch : chats ≠ [])
    (hnodup : (new.map (fun o => o.id)).Nodup)
    (hfresh : ∀ o ∈ new, o.id ∉ seen) :
    ∀ o ∈ new, (o.id ∈ notifyOffers token chats net seen new ↔
      successCount token chats net o = chats.length) := by
  clear _htok _hch
  induction new generalizing seen with
  | nil => intro o ho; exact absurd ho (List.not_mem_nil o)
  | cons a rest ih =>
    rw [List.map_cons, List.nodup_cons] at hnodup
    intro o ho
    rcases List.mem_cons.mp ho with rfl | hmem
    · rw [notifyOffers, List.foldl_cons,
        notify_foldl_untouched token chats net o.id rest _ hnodup.1, notifyStep]
      split
      next hc => simp [hc]
      next hc => simp [hc, hfresh o (List.mem_cons_self o rest)]
    · have hfresh' : ∀ p ∈ rest, p.id ∉ notifyStep token chats net seen a := by
        intro p hp
        have hne : p.id ≠ a.id := by
          intro he
          exact hnodup.1 (he ▸ List.mem_map_of_mem (fun o => o.id) hp)
        rw [notifyStep]
        split
        · rw [Finset.mem_insert, not_or]
          exact ⟨hne, hfresh p (List.mem_cons_of_mem a hp)⟩
        · exact hfresh p (List.mem_cons_of_mem a hp)
      exact ih (notifyStep token chats net seen a) hnodup.2 hfresh' o hmem

/-- Witness for C1: with two configured chats of which only "a" receives,
the sample offer's success count is 1 ≠ 2 and its id is not committed. -/
theorem commit_rule_witness :
    ("1" ∈ notifyOffers "t" ["a", "b"] netOnlyA ∅ [sampleOffer] ↔
      successCount "t" ["a", "b"] netOnlyA sampleOffer = 2) :=
  commit_rule "t" ["a", "b"] netOnlyA ∅ [sampleOffer] (by decide) (by decide)
    (by decide) (by decide) sampleOffer (List.mem_cons_self sampleOffer [])

/-- C3: the heartbeat check is a two-state machine — with no prior record
it writes the current time and sends nothing; with a prior record it
sends (a non-empty result list) exactly when now − lastTime exceeds
heartbeatDays·86400, updating the record to the current time exactly when
at least one destination succeeded; a recent enough record sends nothing
and leaves the record unchanged. -/
theorem heartbeat_two_state :
    (∀ token chats net (hdays : ℤ) now,
        check_and_send_alive_message token chats net hdays now none = (some now, [])) ∧
    (∀ token (chats : List String) net (hdays : ℤ) now t, token ≠ "" → chats ≠ [] →
        ((check_and_send_alive_message token chats net hdays now (some t)).2 ≠ [] ↔
          now - t > (hdays : ℚ) * 86400)) ∧
    (∀ token chats net (hdays : ℤ) now t, now - t > (hdays : ℚ) * 86400 →
        (check_and_send_alive_message token chats net hdays now (some t)).1 =
          (if (send_to_chats token chats aliveText net).any (fun r => r.2)
           then some now else some t)) ∧
    (∀ token chats net (hdays : ℤ) now t, ¬ now - t > (hdays : ℚ) * 86400 →
        check_and_send_alive_message token chats net hdays now (some t) = (some t, [])) := by
  have hiff : ∀ (hdays : ℤ) (now t : ℚ),
      t < now - (hdays : ℚ) * (24 * 60 * 60) ↔ now - t > (hdays : ℚ) * 86400 := by
    intro hdays now t
    constructor <;> intro h <;> [linarith; linarith]
  refine ⟨fun _ _ _ _ _ => rfl, ?_, ?_, ?_⟩
  · intro token chats net hdays now t htok hch
    rw [check_and_send_alive_message]
    split
    next hlt =>
      have hres : send_to_chats token chats aliveText net ≠ [] := by
        rw [send_to_chats, if_neg (by exact fun h => h.elim htok hch)]
        simpa using hch
      simpa [hres] using (hiff hdays now t).mp hlt
    next hlt =>
      simpa using fun h => hlt ((hiff hdays now t).mpr h)
  · intro token chats net hdays now t h
    rw [check_and_send_alive_message, if_pos ((hiff hdays now t).mpr h)]
    simp only [afterSend]
    split <;> rfl
  · intro token chats net hdays now t h
    rw [check_and_send_alive_message, if_neg (fun hlt => h ((hiff hdays now t).mp hlt))]

/-- Witness for C3: one configured chat, an idle gap of 90000 s against a
1-day threshold, every send succeeding. -/
theorem heartbeat_two_state_witness :
    ((check_and_send_alive_message "t" ["a"] netAll 1 90000 (some 0)).2 ≠ [] ↔
      (90000 : ℚ) - 0 > (1 : ℤ) * 86400) ∧
    (check_and_send_alive_message "t" ["a"] netAll 1 90000 (some 0)).1 =
      (if (send_to_chats "t" ["a"] aliveText netAll).any (fun r => r.2)
       then some 90000 else some 0) :=
  ⟨heartbeat_two_state.2.1 "t" ["a"] netAll 1 90000 0 (by decide) (by decide),
   heartbeat_two_state.2.2.1 "t" ["a"] netAll 1 90000 0 (by norm_num)⟩

/-- C7: an offer passes `filter_campers` exactly when some city of the
filter list normalizes to a non-empty substring of the normalized origin
or of the normalized arrival; normalization maps both "Zürich" and
"zurich" to "zurich", and the filter ["madrid"] keeps the offer whose
origin is "Madrid Centro". -/
theorem city_filter_spec :
    (∀ (campers : List Offer) (cities : List String) (c : Offer),
        c ∈ filter_campers campers cities ↔
          c ∈ campers ∧ ∃ city ∈ cities, normalize_city city ≠ "" ∧
            (pySubstr (normalize_city city) (normalize_city c.origin) ∨
             pySubstr (normalize_city city) (normalize_city c.arrival))) ∧
    (normalize_city "Zürich" = "zurich" ∧ normalize_city "zurich" = "zurich") ∧
    filter_campers [sampleOffer] ["madrid"] = [sampleOffer] := by
  refine ⟨?_, ⟨by decide, by decide⟩, by decide⟩
  intro campers cities c
  rw [filter_campers, List.mem_filter]
  simp only [cityMatch, List.any_eq_true, List.mem_map, Bool.and_eq_true,
    Bool.or_eq_true, decide_eq_true_eq, ne_eq]
  constructor
  · rintro ⟨hc, nc, ⟨city, hcity, rfl⟩, hne, hsub⟩
    exact ⟨hc, city, hcity, hne, hsub⟩
  · rintro ⟨hc, city, hcity, hne, hsub⟩
    exact ⟨hc, normalize_city city, ⟨city, hcity, rfl⟩, hne, hsub⟩

/-- Concrete input showing non-idempotence of the normalizer: the string
consisting of U+00B4 ACUTE ACCENT alone. -/
def acuteAccent : String := ⟨[Char.ofNat 0xb4]⟩

/-- C10 counterexample: `normalize_city` is not idempotent.  U+00B4 ACUTE
ACCENT NFKD-decomposes to SPACE + COMBINING ACUTE, so one pass yields the
single-space string, but a second pass strips that space to the empty
string. -/
theorem normalize_city_not_idempotent :
    normalize_city (normalize_city acuteAccent) ≠ normalize_city acuteAccent := by
  decide

/-- Character that a single normalization pass can output and that every
later pass leaves alone: not whitespace, lowercase-fixed, decomposing to
itself, not a combining mark. -/
def stableChar (d : Char) : Prop :=
  isPySpace d = false ∧ pyLowerChar d = d ∧ nfkdChar d = [d] ∧ isCombiningMark d = false

instance (d : Char) : Decidable (stableChar d) := by
  unfold stableChar; infer_instance

/-- Dropping whitespace from both ends of a whitespace-free list is the
identity. -/
theorem pyStrip_of_no_space (l : List Char) (h : ∀ c ∈ l, isPySpace c = false) :
    pyStrip l = l := by
  have hd : ∀ m : List Char, (∀ c ∈ m, isPySpace c = false) →
      m.dropWhile isPySpace = m := by
    intro m hm
    cases m with
    | nil => rfl
    | cons a t => rw [List.dropWhile_cons, hm a (List.mem_cons_self a t)]; simp
  rw [pyStrip, hd _ h, hd, List.reverse_reverse]
  intro c hc
  exact h c (List.mem_reverse.mp hc)

/-- Flattening singleton decompositions is the identity. -/
theorem flatten_map_singleton (l : List Char) : (l.map (fun d => [d])).flatten = l := by
  induction l with
  | nil => rfl
  | cons a t ih => simp [ih]

/-- C10 amended: normalization is idempotent on every input whose
normalized form consists only of stable characters (non-whitespace,
lowercase-fixed, decomposition-free, non-combining) — city names such as
"Zürich" qualify — but not in general, as `normalize_city_not_idempotent`
shows on U+00B4. -/
theorem normalize_city_idempotent_amended (s : String)
    (h : ∀ d ∈ (normalize_city s).data, stableChar d) :
    normalize_city (normalize_city s) = normalize_city s := by
  generalize hq : normalize_city s = t at h ⊢
  clear hq
  obtain ⟨l⟩ := t
  by_cases hl : (⟨l⟩ : String) = ""
  · rw [hl]; rfl
  · have hs : ∀ d ∈ l, stableChar d := h
    have h1 : pyStrip l = l := pyStrip_of_no_space l (fun c hc => (hs c hc).1)
    have h2 : l.map pyLowerChar = l := by
      calc l.map pyLowerChar = l.map id := List.map_congr_left (fun a ha => (hs a ha).2.1)
        _ = l := List.map_id l
    have h3 : (l.map nfkdChar).flatten = l := by
      calc (l.map nfkdChar).flatten = (l.map (fun d => [d])).flatten := by
            rw [List.map_congr_left (fun a ha => (hs a ha).2.2.1)]
        _ = l := flatten_map_singleton l
    have h4 : l.filter (fun ch => !isCombiningMark ch) = l :=
      List.filter_eq_self.mpr (fun a ha => by rw [(hs a ha).2.2.2]; rfl)
    rw [normalize_city, if_neg hl]
    show (⟨((((pyStrip l).map pyLowerChar).map nfkdChar).flatten.filter
      (fun ch => !isCombiningMark ch))⟩ : String) = ⟨l⟩
    rw [h1, h2, h3, h4]

/-- Witness for C10's amended statement on the concrete input "Zürich". -/
theorem normalize_city_idempotent_amended_witness :
    normalize_city (normalize_city "Zürich") = normalize_city "Zürich" :=
  normalize_city_idempotent_amended "Zürich" (by decide)

/-- Environment that sets only TELEGRAM_TOKEN, to "envtok". -/
def envWithToken : Env :=
  { telegram_token := some "envtok", telegram_chats := none,
    default_cities := none, heartbeat_days := none }

/-- Config file that sets only the token key, to "filetok". -/
def fileWithToken : FileConfig :=
  { telegram_token := some "filetok", telegram_chats := none,
    default_cities := none, heartbeat_days := none }

/-- C2 counterexample: with TELEGRAM_TOKEN=envtok in the environment and
telegram_token=filetok in the config file, the merged configuration holds
the file's value — `config.update(file_config)` runs after the
environment is read, so the file overrides the environment, not the other
way round as the claim states. -/
theorem config_env_file_counterexample :
    load_config envWithToken (some fileWithToken) =
      .ok { telegram_token := "filetok", telegram_chats := [],
            default_cities := [], heartbeat_days := 7 } ∧
    ("filetok" : String) ≠ "envtok" :=
  ⟨rfl, by decide⟩

/-- C2 amended: the actual precedence is defaults < environment <
config-file < command-line.  Environment values override the built-in
defaults; any key present in the config file overrides the
environment-derived value; a command-line flag overrides the merged
config for token, chats and cities (heartbeat-interval-days has no
command-line flag). -/
theorem config_precedence_amended :
    (load_config ⟨none, none, none, none⟩ none =
      .ok { telegram_token := "", telegram_chats := [],
            default_cities := [], heartbeat_days := 7 }) ∧
    (∀ v, load_config ⟨some v, none, none, none⟩ none =
      .ok { telegram_token := v, telegram_chats := [],
            default_cities := [], heartbeat_days := 7 }) ∧
    (∀ s, load_config ⟨none, some s, none, none⟩ none =
      .ok { telegram_token := "", telegram_chats := splitClean s,
            default_cities := [], heartbeat_days := 7 }) ∧
    (∀ s, load_config ⟨none, none, some s, none⟩ none =
      .ok { telegram_token := "", telegram_chats := [],
            default_cities := splitClean s, heartbeat_days := 7 }) ∧
    (∀ s n, pyInt s = some n → load_config ⟨none, none, none, some s⟩ none =
      .ok { telegram_token := "", telegram_chats := [],
            default_cities := [], heartbeat_days := n }) ∧
    (∀ env fc c, load_config env (some fc) = .ok c →
        (∀ v, fc.telegram_token = some v → c.telegram_token = v) ∧
        (∀ ls, fc.telegram_chats = some ls → c.telegram_chats = ls) ∧
        (∀ ls, fc.default_cities = some ls → c.default_cities = ls) ∧
        (∀ n, fc.heartbeat_days = some n → c.heartbeat_days = n)) ∧
    (∀ cfg a v, a.telegram_token = some v → effToken cfg a = v) ∧
    (∀ cfg a s, a.telegram_chats = some s → effChats cfg a = splitClean s) ∧
    (∀ cfg a s, a.cities = some s → effCities cfg a = splitClean s) := by
  refine ⟨rfl, fun v => rfl, fun s => rfl, fun s => rfl, ?_, ?_, ?_, ?_, ?_⟩
  · intro s n h
    unfold load_config
    have hg : (Env.mk none none none (some s)).heartbeat_days.getD "7" = s := rfl
    rw [hg, h]
    rfl
  · intro env fc c hc
    revert hc
    unfold load_config
    cases hp : pyInt (env.heartbeat_days.getD "7") with
    | none => intro hc; exact absurd hc (by simp)
    | some hb =>
      intro hc
      injection hc with hc
      subst hc
      refine ⟨?_, ?_, ?_, ?_⟩ <;> (intro v hv; simp [hv])
  · intro cfg a v hv; simp [effToken, hv]
  · intro cfg a s hs; simp [effChats, hs]
  · intro cfg a s hs; simp [effCities, hs]

/-- Witness for C2's amended statement: HEARTBEAT_DAYS=3 in the
environment takes effect, and a --telegram-token flag beats the merged
config value. -/
theorem config_precedence_amended_witness :
    (load_config ⟨none, none, none, some "3"⟩ none =
      .ok { telegram_token := "", telegram_chats := [],
            default_cities := [], heartbeat_days := 3 }) ∧
    effToken { telegram_token := "base", telegram_chats := [],
               default_cities := [], heartbeat_days := 7 }
      { telegram_token := some "cli", telegram_chats := none,
        cities := none, seen_file := none } = "cli" :=
  ⟨config_precedence_amended.2.2.2.2.1 "3" 3 (by decide),
   config_precedence_amended.2.2.2.2.2.2.1 _ _ "cli" rfl⟩

/-- Unfolding equation of `dedupFirst` on a cons cell. -/
theorem dedupFirst_cons (o : Offer) (l : List Offer) :
    dedupFirst (o :: l) = o :: dedupFirst (l.filter (fun p => p.id ≠ o.id)) := by
  rw [dedupFirst]

/-- The fetcher's fold with its threaded seen-id set equals appending the
first-occurrence deduplication of the not-yet-seen row candidates. -/
theorem fetch_go_eq (rows : List Row) :
    ∀ (acc : List Offer) (seen : List String),
      (rows.foldl fetchStep (acc, seen)).1 =
        acc ++ dedupFirst ((rows.filterMap rowOffer).filter
          (fun o => !seen.contains o.id)) := by
  induction rows with
  | nil => intro acc seen; simp [dedupFirst]
  | cons r rest ih =>
    intro acc seen
    rw [List.foldl_cons, List.filterMap_cons]
    cases hro : rowOffer r with
    | none =>
      simp only [fetchStep, hro]
      exact ih acc seen
    | some o =>
      simp only [fetchStep, hro]
      by_cases hc : seen.contains o.id
      · rw [if_pos hc, List.filter_cons]
        simp only [hc, Bool.not_true, if_neg]
        exact ih acc seen
      · rw [if_neg hc, ih (acc ++ [o]) (seen ++ [o.id]), List.filter_cons]
        simp only [hc, Bool.not_false, if_pos]
        rw [dedupFirst_cons, List.append_assoc]
        have hff : ((rest.filterMap rowOffer).filter
              (fun p => !seen.contains p.id)).filter (fun p => p.id ≠ o.id)
            = (rest.filterMap rowOffer).filter
              (fun p => !(seen ++ [o.id]).contains p.id) := by
          rw [List.filter_filter]
          apply List.filter_congr
          intro p _
          by_cases hp : p.id = o.id <;> by_cases hq : seen.contains p.id <;>
            simp [hp, hq]
        rw [hff]
        rfl

/-- C5: the parser returns exactly the first-occurrence deduplication (by
identifier) of the per-row candidates, scanned in document order; a row
yields a candidate only when it has at least 3 columns with non-empty id,
origin and arrival and its lowercased origin is not the header text
"origin"; and in a 3-column row every optional column defaults to the
empty string. -/
theorem fetch_parse_spec :
    (∀ rows, fetch_imoova_campers rows = dedupFirst (rows.filterMap rowOffer)) ∧
    (∀ row o, rowOffer row = some o →
        row.length ≥ 3 ∧ o.id ≠ "" ∧ o.origin ≠ "" ∧ o.arrival ≠ "" ∧
          pyLower o.origin ≠ originHeader) ∧
    (∀ row o, rowOffer row = some o → row.length = 3 →
        o.start = "" ∧ o.end_ = "" ∧ o.model = "" ∧ o.days = "") := by
  refine ⟨?_, ?_, ?_⟩
  · intro rows
    rw [fetch_imoova_campers, fetch_go_eq rows [] []]
    simp
  · intro row o h
    rw [rowOffer] at h
    split at h
    next h3 =>
      dsimp only at h
      split at h
      next hcond =>
        injection h with h
        subst h
        exact ⟨h3, hcond.1, hcond.2.1, hcond.2.2.1, hcond.2.2.2⟩
      next => exact absurd h (by simp)
    next => exact absurd h (by simp)
  · intro row o h h3
    rw [rowOffer] at h
    split at h
    next =>
      dsimp only at h
      split at h
      next =>
        injection h with h
        subst h
        simp [rowCandidate, h3]
      next => exact absurd h (by simp)
    next => exact absurd h (by simp)

/-- Concrete 3-column row used in the C5 witness. -/
def sampleRow : Row := [⟨"1", none⟩, ⟨"Madrid", none⟩, ⟨"Paris", none⟩]

/-- Offer parsed from `sampleRow`. -/
def sampleRowOffer : Offer :=
  { id := "1", url := "", origin := "Madrid", arrival := "Paris",
    start := "", end_ := "", model := "", days := "" }

/-- Witness for C5 at the concrete row: the validity conditions hold and
the optional columns defaulted to the empty string. -/
theorem fetch_parse_spec_witness :
    (sampleRow.length ≥ 3 ∧ sampleRowOffer.id ≠ "" ∧ sampleRowOffer.origin ≠ "" ∧
      sampleRowOffer.arrival ≠ "" ∧ pyLower sampleRowOffer.origin ≠ originHeader) ∧
    (sampleRowOffer.start = "" ∧ sampleRowOffer.end_ = "" ∧
      sampleRowOffer.model = "" ∧ sampleRowOffer.days = "") :=
  ⟨fetch_parse_spec.2.1 sampleRow sampleRowOffer (by decide),
   fetch_parse_spec.2.2 sampleRow sampleRowOffer (by decide) (by decide)⟩

end Imoova
